import Mathlib

/-!
Verification of the LocalAI assistant (ai_processor.py, webhook_handler.py,
database.py) against its natural-language specification.

Shallow embedding conventions:
* Python strings are Lean `String`s; `a in b` (substring test) is `inStr`
  over the underlying character lists.
* `str.lower()` is modelled per-character for the ASCII and Latin-1 ranges
  (`pyCharLower`); characters outside those ranges are returned unchanged.
  Every string the program matches against (keywords, triggers) is already
  lower-case Latin-1, so this captures the behaviour on the relevant inputs.
* Calls into vendor SDKs (the Gemini `generate_content` call) are modelled
  as oracle parameters of type `String → Except String String`: `.ok t` is a
  normal return with text `t`, `.error e` is a raised exception.
* Fallible Python code is embedded with `Option`/`Except`; a raised and
  caught exception becomes an `Except.error` carrying `str(e)`.
-/

/-- Model of Python `str.lower()` for one character: ASCII `A`-`Z` and the
Latin-1 uppercase block `À`-`Þ` (except `×`) map down by 32 code points,
everything else is unchanged. -/
def pyCharLower (c : Char) : Char :=
  if 65 ≤ c.toNat ∧ c.toNat ≤ 90 then Char.ofNat (c.toNat + 32)
  else if 192 ≤ c.toNat ∧ c.toNat ≤ 222 ∧ c.toNat ≠ 215 then Char.ofNat (c.toNat + 32)
  else c

/-- `message.lower()` as a character list. -/
def pyLower (s : String) : List Char := s.data.map pyCharLower

/-- Boolean test that `ns` is a prefix of `hs` (character lists). -/
def isPrefixChars : List Char → List Char → Bool
  | [], _ => true
  | _ :: _, [] => false
  | n :: ns, h :: hs => n == h && isPrefixChars ns hs

/-- Boolean test that `ns` occurs as a contiguous substring of `hay`;
this is the Python expression `ns in hay` on strings. -/
def isSubstrChars (ns : List Char) : List Char → Bool
  | [] => isPrefixChars ns []
  | h :: hs => isPrefixChars ns (h :: hs) || isSubstrChars ns hs

/-- Python `needle in hay` where `hay` is an already-lowered character list. -/
def inStr (needle : String) (hay : List Char) : Bool :=
  isSubstrChars needle.data hay

theorem isPrefixChars_iff (ns hs : List Char) :
    isPrefixChars ns hs = true ↔ ns <+: hs := by
  induction ns generalizing hs with
  | nil => simp [isPrefixChars]
  | cons n ns ih =>
    cases hs with
    | nil => simp [isPrefixChars]
    | cons h hs =>
      simp [isPrefixChars, List.cons_prefix_cons, ih]

theorem isSubstrChars_iff (ns hay : List Char) :
    isSubstrChars ns hay = true ↔ ns <:+: hay := by
  induction hay with
  | nil =>
    cases ns with
    | nil => simp [isSubstrChars, isPrefixChars]
    | cons n ns => simp [isSubstrChars, isPrefixChars, List.infix_nil]
  | cons h hs ih =>
    simp [isSubstrChars, isPrefixChars_iff, ih, List.infix_cons_iff]

theorem inStr_iff (needle : String) (hay : List Char) :
    inStr needle hay = true ↔ needle.data <:+: hay := by
  simp [inStr, isSubstrChars_iff]

theorem pyLower_append (a b : String) :
    pyLower (a ++ b) = pyLower a ++ pyLower b := by
  simp [pyLower]

/-- Substring containment is preserved when the haystack is extended on
either side. -/
theorem inStr_append_right (needle : String) (a b : List Char)
    (h : inStr needle a = true) : inStr needle (a ++ b) = true := by
  rw [inStr_iff] at h ⊢
  exact h.trans ⟨[], b, by simp⟩

theorem inStr_append_left (needle : String) (a b : List Char)
    (h : inStr needle a = true) : inStr needle (b ++ a) = true := by
  rw [inStr_iff] at h ⊢
  exact h.trans ⟨b, [], by simp⟩

/-!
## ai_processor.py — data model

`MessageIntent` (ai_processor.py lines 21-27): the `entities` field (regex
extraction by `_extract_entities`) is not modelled; no claim under
verification depends on its value. `AIResponse` (lines 29-36): the
`booking_info` field is `None` everywhere in the generation paths and is
likewise omitted.
-/

structure MessageIntent where
  intent : String
  confidence : ℚ
  requires_escalation : Bool := false
deriving DecidableEq

structure AIResponse where
  text : String
  confidence : ℚ
  intent : String
  escalate : Bool := false
deriving DecidableEq

/-- Business context dictionary as used by the AI processor. The Python
code reads it with `business.get(key, default)`; the record is modelled as
total, so the `.get` defaults (which only fire on malformed rows) are
elided. -/
structure Business where
  id : String
  name : String
  phone : String
  btype : String
  services : List String
  hours : String
  address : String
deriving DecidableEq

/-- `AIProcessor._load_intent_keywords` (ai_processor.py lines 67-106),
transcribed verbatim; note that `service` and `consultation` occur twice in
the booking list (once under the English block, once under the French one)
and are counted twice by the scorer, exactly as in the source. -/
def intent_keywords : List (String × List String) :=
  [("booking",
    ["appointment", "book", "schedule", "reserve", "available",
     "time", "slot", "tomorrow", "today", "next week",
     "haircut", "massage", "service", "treatment", "consultation",
     "rendez-vous", "réserver", "prendre", "disponible", "horaire",
     "coupe", "cheveux", "service", "traitement", "consultation",
     "demain", "aujourd\x27hui", "semaine prochaine"]),
   ("faq",
    ["hours", "open", "closed", "location", "address", "price",
     "cost", "how much", "phone", "contact", "parking",
     "payment", "accept", "credit card", "cash",
     "heures", "ouvert", "fermé", "adresse", "où", "prix",
     "coût", "combien", "téléphone", "contact", "stationnement",
     "paiement", "acceptez", "carte", "comptant"]),
   ("complaint",
    ["disappointed", "terrible", "awful", "worst", "horrible",
     "refund", "money back", "unsatisfied", "angry", "upset",
     "manager", "supervisor", "complaint", "problem",
     "déçu", "terrible", "affreux", "pire", "horrible",
     "remboursement", "argent", "insatisfait", "fâché", "contrarié",
     "gérant", "superviseur", "plainte", "problème"]),
   ("cancellation",
    ["cancel", "reschedule", "change", "move", "different time",
     "annuler", "reporter", "changer", "déplacer", "autre heure"])]

/-- `AIProcessor._load_escalation_triggers` (ai_processor.py lines 108-119). -/
def escalation_triggers : List String :=
  ["manager", "supervisor", "owner", "complaint", "legal",
   "lawsuit", "attorney", "refund", "money back",
   "terrible", "awful", "worst", "horrible", "disgusting",
   "gérant", "superviseur", "propriétaire", "plainte", "légal",
   "poursuites", "avocat", "remboursement", "argent",
   "terrible", "affreux", "pire", "horrible", "dégoûtant"]

/-- The fixed French indicator list of `detect_language`
(ai_processor.py lines 126-140). -/
def french_words : List String :=
  ["bonjour", "bonsoir", "salut", "merci", "svp", "s\x27il vous plaît",
   "comment", "quand", "où", "pourquoi", "combien", "quel", "quelle",
   "oui", "non", "je", "nous", "vous", "ils", "elles", "le", "la", "les",
   "un", "une", "des", "du", "de", "et", "ou", "mais", "avec", "sans",
   "heures", "ouvert", "fermé", "prix", "coût", "rendez-vous",
   "coupe", "cheveux", "salon", "adresse", "téléphone",
   "j\x27aimerais", "j\x27ai besoin", "pouvez-vous", "êtes-vous",
   "voudrais", "cherche", "veux", "avoir", "être"]

/-- `french_count = sum(1 for word in french_words if word in message_lower)`
(ai_processor.py line 143). -/
def french_count (message : String) : Nat :=
  french_words.countP (fun word => inStr word (pyLower message))

/-- `AIProcessor.detect_language` (ai_processor.py lines 121-146). -/
def detect_language (message : String) : String :=
  if 2 ≤ french_count message then "french" else "english"

/-- `AIProcessor._check_escalation_needed` (ai_processor.py lines 326-329). -/
def check_escalation_needed (message : String) : Bool :=
  escalation_triggers.any (fun trigger => inStr trigger (pyLower message))

/-- Raw keyword hit count `sum(1 for keyword in keywords if keyword in
message_lower)` for one intent category (ai_processor.py line 155). -/
def keyword_score (message_lower : List Char) (keywords : List String) : Nat :=
  keywords.countP (fun keyword => inStr keyword message_lower)

/-- The `keyword_scores` dict of `classify_intent` (ai_processor.py lines
153-157), as an insertion-ordered association list: categories with a
positive raw count, mapped to `score / len(keywords)`.  The Python float
comparisons on these values agree with exact rational arithmetic: all
normalized scores are `k/n` with `n ≤ 30`, so they are at least `1/150`
away from the decision points `0.2` and `0.5` unless exactly equal to
them, and the doubles involved round consistently. -/
def keyword_scores (message : String) : List (String × ℚ) :=
  intent_keywords.filterMap (fun p =>
    let score := keyword_score (pyLower message) p.2
    if 0 < score then some (p.1, (score : ℚ) / p.2.length) else none)

/-- `max(keyword_scores.keys(), key=lambda k: keyword_scores[k])`
(ai_processor.py line 161): left-to-right scan keeping the first maximum,
replacing only on a strictly greater value — Python `max` semantics. -/
def maxByScore : (String × ℚ) → List (String × ℚ) → String × ℚ
  | best, [] => best
  | best, x :: xs => maxByScore (if best.2 < x.2 then x else best) xs

/-- `AIProcessor.classify_intent` (ai_processor.py lines 148-172).  The LLM
fallback `_ai_classify_intent` (prompt, JSON reply, its own error fallback)
is an external-model round trip; its outcome is the oracle parameter `ai`.
The float threshold `> 0.2` is the rational comparison `> 1/5` (see
`keyword_scores`). -/
def classify_intent (message : String) (b : Business) (ai : MessageIntent) :
    MessageIntent :=
  match keyword_scores message with
  | [] => ai
  | s :: rest =>
    let top := maxByScore s rest
    if 1/5 < top.2 then
      { intent := top.1
        confidence := min (top.2 * 2) 1
        requires_escalation := check_escalation_needed message }
    else ai

example : detect_language "bonjour, je cherche une coupe" = "french" := by decide
example : detect_language "hello there" = "english" := by decide
example : check_escalation_needed "I want a REFUND" = true := by decide
example :
    classify_intent "zzz" ⟨"", "", "", "", [], "", ""⟩ ⟨"general", 0, false⟩ =
      ⟨"general", 0, false⟩ := rfl
example :
    keyword_score (pyLower "cancel reschedule change")
      ["cancel", "reschedule", "change", "move", "different time",
       "annuler", "reporter", "changer", "déplacer", "autre heure"] = 3 := by decide

/-!
## ai_processor.py — response generation

The Gemini SDK round trip `self.model.generate_content(prompt)` is the
oracle parameter `llm : String → Except String String` (`.ok t` = returned
with `response.text = t`, `.error e` = raised an exception whose `str` is
`e`).  Prompt texts are transcribed from the Python triple-quoted f-strings
with the leading indentation of each line and the enclosing blank lines
normalized away; the interpolations are kept exactly.
-/

/-- `AIProcessor._safe_generate_content` (ai_processor.py lines 260-267):
catch any exception from the SDK call, log, and return `None`. -/
def safe_generate_content (r : Except String String) : Option String :=
  match r with
  | .ok t => some t
  | .error _ => none

/-- Prompt built by `_generate_french_response` (ai_processor.py lines
349-447), selected on `intent.intent` and, for FAQ, on keywords of the
lowered message. -/
def french_prompt (message : String) (b : Business) (intent : MessageIntent) :
    String :=
  if intent.intent = "booking" then
    "Répondre en français à ce client qui veut prendre rendez-vous:\n\nClient: \"" ++
    message ++ "\"\n\nSalon: " ++ b.name ++ "\nServices: " ++
    String.intercalate ", " b.services ++ "\nHeures: " ++ b.hours ++
    "\n\nInstructions:\n- Répondre en français seulement\n- Être amical et professionnel\n- Si service et heure mentionnés, confirmer\n- Sinon demander quel service et quel moment\n- Garder sous 160 caractères pour SMS\n\nRéponse:"
  else if intent.intent = "faq" then
    if inStr "heure" (pyLower message) || inStr "ouvert" (pyLower message) then
      "Répondre à cette question sur les heures d\x27ouverture:\n\nQuestion: \"" ++
      message ++ "\"\nHeures: " ++ b.hours ++
      "\n\nRépondre en français, être clair et utile.\nGarder sous 160 caractères."
    else if inStr "prix" (pyLower message) || inStr "coût" (pyLower message) ||
        inStr "combien" (pyLower message) then
      "Répondre à cette question sur les prix:\n\nQuestion: \"" ++ message ++
      "\"\nServices et prix: Coupe 45$-65$, Coloration 85$-150$, Coiffage 35$-50$\n\nRépondre en français, donner les prix pertinents.\nGarder sous 160 caractères."
    else if inStr "adresse" (pyLower message) || inStr "où" (pyLower message) then
      "Répondre à cette question sur l\x27adresse:\n\nQuestion: \"" ++ message ++
      "\"\nAdresse: " ++ b.address ++
      "\n\nRépondre en français avec l\x27adresse et info de stationnement.\nGarder sous 160 caractères."
    else
      "Répondre à cette question en français:\n\nQuestion: \"" ++ message ++
      "\"\nSalon: " ++ b.name ++ "\nAdresse: " ++ b.address ++ "\nHeures: " ++
      b.hours ++
      "\n\nÊtre utile et professionnel en français.\nGarder sous 160 caractères."
  else if intent.intent = "complaint" then
    "Répondre avec empathie à cette plainte en français:\n\nMessage: \"" ++
    message ++ "\"\nSalon: " ++ b.name ++
    "\n\nInstructions:\n- Répondre en français seulement\n- Être empathique et professionnel\n- S\x27excuser appropriément\n- Offrir contact direct pour résoudre\n- Garder sous 160 caractères\n\nRéponse:"
  else
    "Répondre à ce message client en français:\n\nMessage: \"" ++ message ++
    "\"\nSalon: " ++ b.name ++
    "\n\nInstructions:\n- Répondre en français seulement\n- Être amical et professionnel\n- Demander comment aider\n- Garder sous 160 caractères\n\nRéponse:"

/-- Prompt built by `_generate_english_response` (ai_processor.py lines
471-554). -/
def english_prompt (message : String) (b : Business) (intent : MessageIntent) :
    String :=
  if intent.intent = "booking" then
    "Generate a helpful booking response for this customer message:\n\nCustomer: \"" ++
    message ++ "\"\n\nBusiness: " ++ b.name ++ "\nType: " ++ b.btype ++
    "\nServices: " ++ String.intercalate ", " b.services ++ "\nHours: " ++
    b.hours ++
    "\n\nGuidelines:\n- Be friendly and professional\n- If they specified a service and time, acknowledge it\n- If they\x27re vague, ask for specific service and preferred time\n- Mention our services if they didn\x27t specify\n- Keep response under 160 characters for SMS\n- Include a call-to-action\n\nResponse:"
  else if intent.intent = "faq" then
    "Answer this customer question about our business:\n\nQuestion: \"" ++
    message ++ "\"\n\nBusiness Information:\nBusiness: " ++ b.name ++
    "\nType: " ++ b.btype ++ "\nAddress: " ++ b.address ++ "\nHours: " ++
    b.hours ++ "\nServices: " ++ String.intercalate ", " b.services ++
    "\n\nGuidelines:\n- Answer directly and helpfully\n- Use the exact information provided\n- If info not available, say \"Please call us for details\"\n- Be friendly but concise\n- Keep under 160 characters\n\nResponse:"
  else if intent.intent = "complaint" then
    "Respond empathetically to this customer complaint:\n\nCustomer: \"" ++
    message ++ "\"\nBusiness: " ++ b.name ++
    "\n\nGuidelines:\n- Acknowledge their concern genuinely\n- Apologize appropriately\n- Explain next steps clearly\n- Offer direct contact\n- Professional but warm tone\n- Keep under 160 characters\n\nResponse:"
  else
    "Respond to this customer message professionally:\n\nCustomer: \"" ++
    message ++ "\"\nBusiness: " ++ b.name ++
    "\n\nGuidelines:\n- Be friendly and helpful\n- Try to understand what they might need\n- Offer relevant services if appropriate\n- Ask clarifying questions if unclear\n- Keep response brief and engaging\n- Keep under 160 characters\n\nResponse:"

/-- The fixed French fallback reply (ai_processor.py line 451). -/
def french_fallback_text : String :=
  "Merci de nous contacter! Comment puis-je vous aider aujourd\x27hui?"

/-- The fixed English fallback reply (ai_processor.py line 558). -/
def english_fallback_text : String :=
  "Thanks for reaching out! How can I help you today?"

/-- `if not response_text: response_text = fallback` — Python falsiness:
`None` and the empty string both trigger the fallback. -/
def text_or_fallback (response_text : Option String) (fallback : String) :
    String :=
  match response_text with
  | none => fallback
  | some t => if t = "" then fallback else t

/-- `AIProcessor._generate_french_response` (ai_processor.py lines 346-466).
The enclosing `try`/`except` only fires on exceptions other than SDK
failures (already absorbed by `_safe_generate_content`); with a typed
`Business` record the body cannot raise, so that branch is unreachable and
not modelled. -/
def generate_french_response (message : String) (b : Business)
    (intent : MessageIntent) (llm : String → Except String String) : AIResponse :=
  let response_text :=
    text_or_fallback (safe_generate_content (llm (french_prompt message b intent)))
      french_fallback_text
  { text := response_text
    confidence := intent.confidence
    intent := intent.intent
    escalate := intent.requires_escalation || intent.intent == "complaint" }

/-- `AIProcessor._generate_english_response` (ai_processor.py lines 468-573);
same conventions as the French generator. -/
def generate_english_response (message : String) (b : Business)
    (intent : MessageIntent) (llm : String → Except String String) : AIResponse :=
  let response_text :=
    text_or_fallback (safe_generate_content (llm (english_prompt message b intent)))
      english_fallback_text
  { text := response_text
    confidence := intent.confidence
    intent := intent.intent
    escalate := intent.requires_escalation || intent.intent == "complaint" }

/-- `AIProcessor.generate_response` (ai_processor.py lines 331-344): detect
the customer language, classify intent, then dispatch to the French or
English generator.  `ai` is the `_ai_classify_intent` oracle (see
`classify_intent`). -/
def generate_response (message : String) (b : Business) (ai : MessageIntent)
    (llm : String → Except String String) : AIResponse :=
  let language := detect_language message
  let intent := classify_intent message b ai
  if language = "french" then generate_french_response message b intent llm
  else generate_english_response message b intent llm

/-!
## webhook_handler.py — message pipeline

`MessageProcessor.process_message` (lines 38-100) runs inside a blanket
`try`/`except` that converts any exception e into an error dict keyed by error and holding str(e).
Two of the methods it calls do not exist anywhere in the repository:
`Database.get_conversation` and `Database.log_interaction` (database.py
defines neither).  In Python the attribute lookup on the callee is
evaluated before the call and before its arguments, so
`self.db.get_conversation(...)` raises `AttributeError` — the embedding
records this as a fixed `Except.error` holding the str of the exception.

The pipeline is modelled with an explicit trace of the externally visible
steps (`Ev`): intent classification, LLM generation, the Twilio SDK send,
and the writing of an interaction row.
-/

inductive Ev where
  | webhook
  | classify
  | generate
  | send
  | logRow
deriving DecidableEq

/-- Result dictionary of `process_message`: either the success dict of
lines 91-96 or the error dict holding str(e). -/
inductive ProcResult where
  | ok (response_text : String) (intent : String) (escalate : Bool)
      (booking_created : Bool)
  | error (msg : String)
deriving DecidableEq

/-- Conversation context row (`get_conversation` result), never actually
produced: the method is missing. -/
structure Conversation where
  customer_phone : String
deriving DecidableEq

/-- `self.db.get_conversation(...)` (webhook_handler.py line 63):
`Database` (database.py) defines no `get_conversation`, so the attribute
lookup raises `AttributeError` with this message. -/
def db_get_conversation : Except String Conversation :=
  .error "\x27Database\x27 object has no attribute \x27get_conversation\x27"

/-- The call of `log_interaction` on `self.db` (webhook_handler.py line 80):
`Database` defines no `log_interaction` either; the callee attribute is
evaluated first, so this `AttributeError` would be raised before the
argument dict (whose `response[\x27text\x27]` subscript would itself raise
`TypeError` on the `AIResponse` dataclass). -/
def db_log_interaction : Except String Unit :=
  .error "\x27Database\x27 object has no attribute \x27log_interaction\x27"

/-- Python `==` between the `MessageIntent` dataclass and a `str`
(webhook_handler.py lines 70-74): both operands return `NotImplemented`,
so the comparison is `False` for every intent value and every string. -/
def messageIntent_eq_str (_intent : MessageIntent) (_s : String) : Bool :=
  false

/-- The `message_data` dict for an inbound SMS (webhook_handler.py lines
224-230). -/
structure SmsMessage where
  fromPhone : String
  toPhone : String
  body : String
deriving DecidableEq

/-- The processing environment: the database row behind
`get_business_by_phone`, and the two LLM oracles (see `classify_intent`
and `generate_response`). -/
structure Env where
  business : Option Business
  ai : MessageIntent
  llm : String → Except String String

/-- `MessageProcessor.process_message` (webhook_handler.py lines 38-100),
returning the trace of pipeline steps it performs together with its result
dictionary.  The branches guarded by `messageIntent_eq_str` call further
missing `AIProcessor` methods (`extract_booking_info`, `answer_faq`,
`analyze_complaint`); as the guards are identically false these are
embedded as the `AttributeError` they would raise. -/
def process_message (env : Env) (msg : SmsMessage) : List Ev × ProcResult :=
  let message_text := msg.body.trim
  match env.business with
  | none => ([], .error "Business not configured")
  | some b =>
    match db_get_conversation with
    | .error e => ([], .error e)
    | .ok _conversation =>
      let intent := classify_intent message_text b env.ai
      let responseE : Except String AIResponse :=
        if messageIntent_eq_str intent "booking" then
          .error "\x27AIProcessor\x27 object has no attribute \x27extract_booking_info\x27"
        else if messageIntent_eq_str intent "faq" then
          .error "\x27AIProcessor\x27 object has no attribute \x27answer_faq\x27"
        else if messageIntent_eq_str intent "complaint" then
          .error "\x27AIProcessor\x27 object has no attribute \x27analyze_complaint\x27"
        else
          .ok (generate_response message_text b env.ai env.llm)
      match responseE with
      | .error e => ([Ev.classify], .error e)
      | .ok response =>
        match db_log_interaction with
        | .error e => ([Ev.classify, Ev.generate], .error e)
        | .ok _ =>
          -- dead even beyond the missing method: building the log dict
          -- would evaluate `response[\x27text\x27]` and raise TypeError
          ([Ev.classify, Ev.generate], .error "\x27AIResponse\x27 object is not subscriptable")

/-- `process_and_respond_sms` (webhook_handler.py lines 291-314): run the
pipeline; only when the result carries no `error` key send the SMS via the
Twilio SDK (and, on escalation, notify the owner — `notify_business_owner`
is undefined, a `NameError` swallowed by the handler of the task). -/
def process_and_respond_sms (env : Env) (msg : SmsMessage) : List Ev :=
  let r := process_message env msg
  match r.2 with
  | .error _ => r.1
  | .ok _ _ _ _ => r.1 ++ [Ev.send]

/-- The HTTP reply of the webhook endpoint. -/
structure WebhookReply where
  body : String
  status : Nat
deriving DecidableEq

/-- `handle_sms_webhook` (webhook_handler.py lines 216-242): parse the
Twilio form, schedule `process_and_respond_sms` as a background task, and
immediately return an empty 200 response.  The returned pair is (HTTP
reply, full event trace); the background trace happens after the reply is
already fixed. -/
def handle_sms_webhook (env : Env) (msg : SmsMessage) :
    WebhookReply × List Ev :=
  ({ body := "", status := 200 }, Ev.webhook :: process_and_respond_sms env msg)

/-- Sample fixtures used by the concrete counterexamples and witnesses. -/
def sample_business : Business :=
  { id := "demo_salon_001"
    name := "Bella Hair Salon"
    phone := "+1234567890"
    btype := "hair_salon"
    services := ["haircut", "coloring", "styling", "treatment", "blowout"]
    hours := "Mon-Sat 9am-7pm, Closed Sunday"
    address := "123 Main Street, Anytown, ST 12345" }

def sample_ai : MessageIntent :=
  { intent := "general", confidence := 0, requires_escalation := false }

def escalating_ai : MessageIntent :=
  { intent := "general", confidence := 0, requires_escalation := true }

def ok_llm : String → Except String String := fun _ => .ok "Hello!"

def failing_llm : String → Except String String := fun _ => .error "boom"

def sample_env : Env :=
  { business := some sample_business, ai := sample_ai, llm := ok_llm }

def sample_msg : SmsMessage :=
  { fromPhone := "+15550001111", toPhone := "+1234567890", body := "zzz" }

example :
    process_message sample_env sample_msg =
      ([], .error "\x27Database\x27 object has no attribute \x27get_conversation\x27") := by
  decide
example : handle_sms_webhook sample_env sample_msg =
    (⟨"", 200⟩, [Ev.webhook]) := by decide

/-!
## database.py — `get_business_by_phone` and JSON blobs

`json.loads` is the Python standard-library JSON decoder; it is modelled by
an executable recursive-descent decoder over the JSON grammar (value =
null / true / false / number / string / array / object).  Deliberate
simplifications, none load-bearing for the claims: `\uXXXX` escapes do not
pair surrogates, and the non-standard `NaN`/`Infinity` extensions are not
modelled.  The fuel argument is the input length plus one, which bounds
the nesting depth, so it never runs out on any input.
-/

inductive Json where
  | null
  | bool (b : Bool)
  | num (q : ℚ)
  | str (s : String)
  | arr (elems : List Json)
  | obj (members : List (String × Json))

def Json.isArr : Json → Bool
  | .arr _ => true
  | _ => false

def Json.isObj : Json → Bool
  | .obj _ => true
  | _ => false

def jsonWs (c : Char) : Bool :=
  c = ' ' || c = '\t' || c = '\n' || c = '\r'

def skipWs : List Char → List Char
  | [] => []
  | c :: cs => if jsonWs c then skipWs cs else c :: cs

def hexVal (c : Char) : Option Nat :=
  if 48 ≤ c.toNat ∧ c.toNat ≤ 57 then some (c.toNat - 48)
  else if 97 ≤ c.toNat ∧ c.toNat ≤ 102 then some (c.toNat - 87)
  else if 65 ≤ c.toNat ∧ c.toNat ≤ 70 then some (c.toNat - 55)
  else none

/-- JSON string body after the opening quote; strict mode: raw control
characters and unknown escapes are rejected. -/
def parseJStr : List Char → List Char → Option (String × List Char)
  | acc, '"' :: rest => some (⟨acc.reverse⟩, rest)
  | acc, '\\' :: 'u' :: h1 :: h2 :: h3 :: h4 :: rest =>
    match hexVal h1, hexVal h2, hexVal h3, hexVal h4 with
    | some a, some b, some c, some d =>
      parseJStr (Char.ofNat (((a * 16 + b) * 16 + c) * 16 + d) :: acc) rest
    | _, _, _, _ => none
  | acc, '\\' :: e :: rest =>
    if e = '"' then parseJStr ('"' :: acc) rest
    else if e = '\\' then parseJStr ('\\' :: acc) rest
    else if e = '/' then parseJStr ('/' :: acc) rest
    else if e = 'b' then parseJStr ('\x08' :: acc) rest
    else if e = 'f' then parseJStr ('\x0c' :: acc) rest
    else if e = 'n' then parseJStr ('\n' :: acc) rest
    else if e = 'r' then parseJStr ('\r' :: acc) rest
    else if e = 't' then parseJStr ('\t' :: acc) rest
    else none
  | _, '\\' :: [] => none
  | acc, c :: rest => if c.toNat < 32 then none else parseJStr (c :: acc) rest
  | _, [] => none

def takeDigits : List Char → List Char × List Char
  | [] => ([], [])
  | c :: cs =>
    if c.isDigit then
      let p := takeDigits cs
      (c :: p.1, p.2)
    else ([], c :: cs)

def digitsToNat (ds : List Char) : Nat :=
  ds.foldl (fun n c => n * 10 + (c.toNat - 48)) 0

/-- exponent suffix after `e`/`E`, returned as the scale factor `10^k` or
its reciprocal. -/
def parseJExp (l : List Char) : Option (ℚ × List Char) :=
  let sgn : Bool × List Char := match l with
    | '+' :: rest => (false, rest)
    | '-' :: rest => (true, rest)
    | _ => (false, l)
  match takeDigits sgn.2 with
  | ([], _) => none
  | (eds, l2) =>
    let k := digitsToNat eds
    some (if sgn.1 then 1 / (10 : ℚ) ^ k else (10 : ℚ) ^ k, l2)

/-- JSON number: `-? (0 | [1-9][0-9]*) (.[0-9]+)? ([eE][+-]?[0-9]+)?`. -/
def parseJNum (l : List Char) : Option (ℚ × List Char) :=
  let sgn : Bool × List Char := match l with
    | '-' :: rest => (true, rest)
    | _ => (false, l)
  match takeDigits sgn.2 with
  | ([], _) => none
  | (i :: ids, l2) =>
    if i = '0' ∧ ids ≠ [] then none
    else
      let ipart : Nat := digitsToNat (i :: ids)
      let fpart : Option (List Char) × List Char := match l2 with
        | '.' :: l3 =>
          match takeDigits l3 with
          | ([], _) => (none, l2)
          | (fds, l4) => (some fds, l4)
        | _ => (none, l2)
      match fpart with
      | (none, l4) =>
        match l2 with
        | '.' :: _ => none
        | _ =>
          let epart : Option (ℚ × List Char) := match l4 with
            | 'e' :: l5 => parseJExp l5
            | 'E' :: l5 => parseJExp l5
            | _ => some (1, l4)
          match epart with
          | none => none
          | some (scale, l6) =>
            let base : ℚ := if scale = 1 then (ipart : ℚ) else (ipart : ℚ) * scale
            some (if sgn.1 then -base else base, l6)
      | (some fds, l4) =>
        let epart : Option (ℚ × List Char) := match l4 with
          | 'e' :: l5 => parseJExp l5
          | 'E' :: l5 => parseJExp l5
          | _ => some (1, l4)
        match epart with
        | none => none
        | some (scale, l6) =>
          let base : ℚ :=
            ((ipart : ℚ) + (digitsToNat fds : ℚ) / (10 : ℚ) ^ fds.length) * scale
          some (if sgn.1 then -base else base, l6)

mutual

def parseJsonValue : Nat → List Char → Option (Json × List Char)
  | 0, _ => none
  | fuel + 1, l =>
    match skipWs l with
    | [] => none
    | c :: rest =>
      if c = '"' then
        match parseJStr [] rest with
        | some (s, r) => some (.str s, r)
        | none => none
      else if c = '\x7b' then parseJObjItems fuel rest
      else if c = '[' then parseJArrItems fuel rest
      else
        match c :: rest with
        | 't' :: 'r' :: 'u' :: 'e' :: r => some (.bool true, r)
        | 'f' :: 'a' :: 'l' :: 's' :: 'e' :: r => some (.bool false, r)
        | 'n' :: 'u' :: 'l' :: 'l' :: r => some (.null, r)
        | l' =>
          match parseJNum l' with
          | some (q, r) => some (.num q, r)
          | none => none

/-- array items, cursor just after `[`. -/
def parseJArrItems : Nat → List Char → Option (Json × List Char)
  | 0, _ => none
  | fuel + 1, l =>
    match skipWs l with
    | ']' :: rest => some (.arr [], rest)
    | l' =>
      match parseJsonValue fuel l' with
      | none => none
      | some (v, r) =>
        match parseJArrRest fuel r with
        | some (vs, r') => some (.arr (v :: vs), r')
        | none => none

/-- after one array element: `, value ... ]` or `]`. -/
def parseJArrRest : Nat → List Char → Option (List Json × List Char)
  | 0, _ => none
  | fuel + 1, l =>
    match skipWs l with
    | ']' :: rest => some ([], rest)
    | ',' :: rest =>
      match parseJsonValue fuel rest with
      | none => none
      | some (v, r) =>
        match parseJArrRest fuel r with
        | some (vs, r') => some (v :: vs, r')
        | none => none
    | _ => none

/-- object members, cursor just after the opening brace. -/
def parseJObjItems : Nat → List Char → Option (Json × List Char)
  | 0, _ => none
  | fuel + 1, l =>
    match skipWs l with
    | '\x7d' :: rest => some (.obj [], rest)
    | '"' :: rest =>
      match parseJStr [] rest with
      | none => none
      | some (k, r) =>
        match skipWs r with
        | ':' :: r' =>
          match parseJsonValue fuel r' with
          | none => none
          | some (v, r'') =>
            match parseJObjRest fuel r'' with
            | some (kvs, r3) => some (.obj ((k, v) :: kvs), r3)
            | none => none
        | _ => none
    | _ => none

/-- after one object member: `, "key": value ...` or the closing brace. -/
def parseJObjRest : Nat → List Char → Option (List (String × Json) × List Char)
  | 0, _ => none
  | fuel + 1, l =>
    match skipWs l with
    | '\x7d' :: rest => some ([], rest)
    | ',' :: rest =>
      match skipWs rest with
      | '"' :: r0 =>
        match parseJStr [] r0 with
        | none => none
        | some (k, r) =>
          match skipWs r with
          | ':' :: r' =>
            match parseJsonValue fuel r' with
            | none => none
            | some (v, r'') =>
              match parseJObjRest fuel r'' with
              | some (kvs, r3) => some ((k, v) :: kvs, r3)
              | none => none
          | _ => none
      | _ => none
    | _ => none

end

/-- Python `json.loads`: decode one JSON value, requiring the whole input
to be consumed (modulo trailing whitespace); any parse error raises
`JSONDecodeError`, i.e. returns `none` here. -/
def json_loads (s : String) : Option Json :=
  match parseJsonValue (s.length + 1) s.data with
  | some (v, rest) => if skipWs rest = [] then some v else none
  | none => none

example : json_loads "[]" = some (.arr []) := rfl
example : json_loads "\x7b\x7d" = some (.obj []) := rfl
example : json_loads "5" = some (.num 5) := rfl
example : json_loads "not json" = none := rfl
example : json_loads "" = none := rfl
example : json_loads " [true, null] " = some (.arr [.bool true, .null]) := rfl
example : json_loads "\x7b\"a\": \"b\"\x7d" = some (.obj [("a", .str "b")]) := rfl

/-- A raw `businesses` row as fetched by `SELECT * ... WHERE phone = ?`
(database.py lines 181-186).  The three JSON-blob columns are nullable
TEXT; `id`, `name`, `phone` are NOT NULL, and `type`/`hours` have schema
defaults, so they are modelled as plain strings. -/
structure BusinessRow where
  id : String
  name : String
  phone : String
  btype : String
  services : Option String
  hours : String
  address : String
  faq_data : Option String
  pricing_data : Option String

/-- The business dict returned by `get_business_by_phone` after the three
blob fields have been replaced by parsed JSON values. -/
structure BusinessRecord where
  id : String
  name : String
  phone : String
  btype : String
  hours : String
  address : String
  services : Json
  faq_data : Json
  pricing_data : Json

/-- One `try: business[k] = json.loads(business[k] or lit) except
(JSONDecodeError, TypeError): business[k] = default` block (database.py
lines 188-201): a missing (`None`) or empty blob falls back to the literal
`lit` (the two-character array or object literal), and a parse failure yields
`default`. -/
def load_json_field (blob : Option String) (lit : String) (default : Json) :
    Json :=
  let txt := match blob with
    | none => lit
    | some s => if s = "" then lit else s
  match json_loads txt with
  | some v => v
  | none => default

/-- `Database.get_business_by_phone` (database.py lines 175-209).  The
sqlite interaction is modelled by the table contents `rows` (in insertion
order; `fetchone` returns the first match) plus a flag `dbError` for an
exception inside the `try` block, which the handler logs and converts to
`None`. -/
def get_business_by_phone (rows : List BusinessRow) (dbError : Bool)
    (phone : String) : Option BusinessRecord :=
  if dbError then none
  else
    match rows.find? (fun r => r.phone == phone) with
    | none => none
    | some row =>
      some
        { id := row.id
          name := row.name
          phone := row.phone
          btype := row.btype
          hours := row.hours
          address := row.address
          services := load_json_field row.services "[]" (Json.arr [])
          faq_data := load_json_field row.faq_data "\x7b\x7d" (Json.obj [])
          pricing_data := load_json_field row.pricing_data "\x7b\x7d" (Json.obj []) }

/-- A stored row whose `services` column holds `"5"` — valid JSON, but a
number, not an array. -/
def numeric_services_row : BusinessRow :=
  { id := "b1"
    name := "B"
    phone := "+15551234567"
    btype := "salon"
    services := some "5"
    hours := "9-5"
    address := "1 Main St"
    faq_data := none
    pricing_data := none }

example :
    (get_business_by_phone [numeric_services_row] false "+15551234567").map
      (fun b => b.services) = some (Json.num 5) := rfl

/-!
## Supporting lemmas
-/

theorem maxByScore_spec (xs : List (String × ℚ)) (best : String × ℚ) :
    (maxByScore best xs = best ∨ maxByScore best xs ∈ xs) ∧
    ∀ p ∈ best :: xs, p.2 ≤ (maxByScore best xs).2 := by
  induction xs generalizing best with
  | nil => simp [maxByScore]
  | cons x xs ih =>
    simp only [maxByScore]
    by_cases h : best.2 < x.2
    · rw [if_pos h]
      obtain ⟨hmem, hall⟩ := ih x
      refine ⟨?_, ?_⟩
      · rcases hmem with h1 | h1
        · exact Or.inr (by simp [h1])
        · exact Or.inr (List.mem_cons_of_mem _ h1)
      · intro p hp
        rcases List.mem_cons.mp hp with rfl | hp'
        · exact le_trans (le_of_lt h) (hall x (List.mem_cons_self _ _))
        · exact hall p hp'
    · rw [if_neg h]
      obtain ⟨hmem, hall⟩ := ih best
      refine ⟨?_, ?_⟩
      · rcases hmem with h1 | h1
        · exact Or.inl h1
        · exact Or.inr (List.mem_cons_of_mem _ h1)
      · intro p hp
        rcases List.mem_cons.mp hp with rfl | hp'
        · exact hall p (List.mem_cons_self _ _)
        · rcases List.mem_cons.mp hp' with rfl | hp''
          · exact le_trans (le_of_not_lt h) (hall best (List.mem_cons_self _ _))
          · exact hall p (List.mem_cons_of_mem _ hp'')

theorem mem_keyword_scores (m : String) (p : String × ℚ) :
    p ∈ keyword_scores m ↔
      ∃ q ∈ intent_keywords,
        0 < keyword_score (pyLower m) q.2 ∧
        p = (q.1, (keyword_score (pyLower m) q.2 : ℚ) / q.2.length) := by
  simp only [keyword_scores, List.mem_filterMap]
  constructor
  · rintro ⟨q, hq, hf⟩
    by_cases h : 0 < keyword_score (pyLower m) q.2
    · refine ⟨q, hq, h, ?_⟩
      simp only [h, if_true] at hf
      exact (Option.some_inj.mp hf).symm
    · simp [h] at hf
  · rintro ⟨q, hq, h, hp⟩
    exact ⟨q, hq, by simp [h, hp]⟩

theorem intent_keywords_len_pos :
    ∀ q ∈ intent_keywords, 0 < q.2.length := by decide

/-- The float comparison `score / len(keywords) > 0.2` is the integer
comparison `len < 5 * score` (for nonempty keyword lists). -/
theorem score_gate (k n : Nat) (hn : 0 < n) :
    (1 : ℚ) / 5 < (k : ℚ) / n ↔ n < 5 * k := by
  rw [div_lt_div_iff₀ (by norm_num) (by exact_mod_cast hn)]
  constructor
  · intro h
    have : ((n : ℚ)) < 5 * k := by linarith
    exact_mod_cast this
  · intro h
    have : ((n : ℚ)) < 5 * k := by exact_mod_cast h
    linarith

/-- When no category clears the threshold, `classify_intent` returns the
classification of the LLM oracle unchanged. -/
theorem classify_no_hit (m : String) (b : Business) (ai : MessageIntent)
    (h : ∀ q ∈ intent_keywords, 5 * keyword_score (pyLower m) q.2 ≤ q.2.length) :
    classify_intent m b ai = ai := by
  unfold classify_intent
  cases hks : keyword_scores m with
  | nil => rfl
  | cons s rest =>
    have hmem : maxByScore s rest ∈ keyword_scores m := by
      rw [hks]
      rcases (maxByScore_spec rest s).1 with h1 | h1
      · rw [h1]; exact List.mem_cons_self _ _
      · exact List.mem_cons_of_mem _ h1
    rw [mem_keyword_scores] at hmem
    obtain ⟨q, hq, _, hpair⟩ := hmem
    have hlen : 0 < q.2.length := intent_keywords_len_pos q hq
    have hle : ¬ ((1 : ℚ) / 5 < (maxByScore s rest).2) := by
      rw [hpair]
      rw [score_gate _ _ hlen]
      have := h q hq
      omega
    simp only [hle, if_false, ite_false]

/-- When some category clears the threshold, `classify_intent` returns the
top-scoring category with doubled-and-capped confidence and the
trigger-scan escalation flag. -/
theorem classify_keyword_hit (m : String) (b : Business)
    (h : ∃ q ∈ intent_keywords, q.2.length < 5 * keyword_score (pyLower m) q.2) :
    ∃ top ∈ keyword_scores m,
      (∀ p ∈ keyword_scores m, p.2 ≤ top.2) ∧ (1 : ℚ) / 5 < top.2 ∧
      ∀ ai : MessageIntent, classify_intent m b ai =
        { intent := top.1
          confidence := min (top.2 * 2) 1
          requires_escalation := check_escalation_needed m } := by
  obtain ⟨q, hq, hgate⟩ := h
  have hpos : 0 < keyword_score (pyLower m) q.2 := by omega
  have hlen : 0 < q.2.length := intent_keywords_len_pos q hq
  have hpmem :
      (q.1, (keyword_score (pyLower m) q.2 : ℚ) / q.2.length) ∈ keyword_scores m := by
    rw [mem_keyword_scores]
    exact ⟨q, hq, hpos, rfl⟩
  have hne : keyword_scores m ≠ [] := by
    intro h0
    rw [h0] at hpmem
    cases hpmem
  obtain ⟨s, rest, hks⟩ : ∃ s rest, keyword_scores m = s :: rest := by
    cases h0 : keyword_scores m with
    | nil => exact absurd h0 hne
    | cons s rest => exact ⟨s, rest, rfl⟩
  have hmax_mem : maxByScore s rest ∈ keyword_scores m := by
    rw [hks]
    rcases (maxByScore_spec rest s).1 with h1 | h1
    · rw [h1]; exact List.mem_cons_self _ _
    · exact List.mem_cons_of_mem _ h1
  have hall : ∀ p ∈ keyword_scores m, p.2 ≤ (maxByScore s rest).2 := by
    intro p hp
    exact (maxByScore_spec rest s).2 p (hks ▸ hp)
  have h15 : (1 : ℚ) / 5 < (maxByScore s rest).2 := by
    have h1 : (1 : ℚ) / 5 < (keyword_score (pyLower m) q.2 : ℚ) / q.2.length :=
      (score_gate _ _ hlen).mpr hgate
    exact lt_of_lt_of_le h1 (hall _ hpmem)
  refine ⟨maxByScore s rest, hmax_mem, hall, h15, ?_⟩
  intro ai
  unfold classify_intent
  rw [hks]
  simp only [h15, if_true, ite_true]

/-- `generate_response` sets `escalate` by the same formula on both
language paths. -/
theorem generate_response_escalate_eq (m : String) (b : Business)
    (ai : MessageIntent) (llm : String → Except String String) :
    (generate_response m b ai llm).escalate =
      ((classify_intent m b ai).requires_escalation ||
        (classify_intent m b ai).intent == "complaint") := by
  unfold generate_response generate_french_response generate_english_response
  by_cases h : detect_language m = "french" <;> simp [h]

theorem check_escalation_needed_iff (m : String) :
    check_escalation_needed m = true ↔
      ∃ t ∈ escalation_triggers, t.data <:+: pyLower m := by
  simp [check_escalation_needed, List.any_eq_true, inStr_iff]


/-!
## Claim theorems
-/

/-- C1: for every message `m` and business `b`, `classify_intent` scores
each intent category as the number of keywords of that category occurring as
substrings of the lowercased `m` divided by the total keyword
count (the last conjunct characterizes the score table); when some
category has normalized score exceeding the `0.2` threshold — stated
integrally as `len < 5 * score`, which is equivalent by `score_gate` — it
returns the highest-scoring intent with confidence `min(2 * score, 1.0)`
without consulting the LLM (the result is identical for any oracle
outcomes `ai`, `aiAlt`); and it falls back to the LLM-based classifier
exactly when no category exceeds the threshold. -/
theorem classify_intent_keyword_threshold (m : String) (b : Business)
    (ai aiAlt : MessageIntent) :
    ((∀ q ∈ intent_keywords, 5 * keyword_score (pyLower m) q.2 ≤ q.2.length) →
        classify_intent m b ai = ai)
    ∧ ((∃ q ∈ intent_keywords, q.2.length < 5 * keyword_score (pyLower m) q.2) →
        ∃ top ∈ keyword_scores m,
          (∀ p ∈ keyword_scores m, p.2 ≤ top.2) ∧ (1 : ℚ) / 5 < top.2 ∧
          classify_intent m b ai =
            { intent := top.1
              confidence := min (top.2 * 2) 1
              requires_escalation := check_escalation_needed m } ∧
          classify_intent m b ai = classify_intent m b aiAlt)
    ∧ (∀ p, p ∈ keyword_scores m ↔
        ∃ q ∈ intent_keywords,
          0 < keyword_score (pyLower m) q.2 ∧
          p = (q.1, (keyword_score (pyLower m) q.2 : ℚ) / q.2.length)) := by
  refine ⟨classify_no_hit m b ai, ?_, fun p => mem_keyword_scores m p⟩
  intro h
  obtain ⟨top, hmem, hall, h15, heq⟩ := classify_keyword_hit m b h
  exact ⟨top, hmem, hall, h15, heq ai, (heq ai).trans (heq aiAlt).symm⟩

/-- C1 witness: on `"cancel reschedule change"` the cancellation category
scores 3 of 10 keywords, clearing the threshold. -/
theorem classify_intent_keyword_threshold_witness :
    (∃ q ∈ intent_keywords,
      q.2.length < 5 * keyword_score (pyLower "cancel reschedule change") q.2)
    ∧ ∃ top ∈ keyword_scores "cancel reschedule change",
        (∀ p ∈ keyword_scores "cancel reschedule change", p.2 ≤ top.2) ∧
        (1 : ℚ) / 5 < top.2 ∧
        classify_intent "cancel reschedule change" sample_business sample_ai =
          { intent := top.1
            confidence := min (top.2 * 2) 1
            requires_escalation := check_escalation_needed "cancel reschedule change" } ∧
        classify_intent "cancel reschedule change" sample_business sample_ai =
        classify_intent "cancel reschedule change" sample_business escalating_ai :=
  ⟨by decide,
   (classify_intent_keyword_threshold "cancel reschedule change" sample_business
      sample_ai escalating_ai).2.1 (by decide)⟩

/-- C2: for every message `m`, `detect_language` returns `"french"`
exactly when at least 2 of the fixed French indicator words occur as
substrings of the lowercased `m`, and `"english"` otherwise; it never
produces any other value. -/
theorem detect_language_french_heuristic (m : String) :
    (detect_language m = "french" ↔ 2 ≤ french_count m)
    ∧ (detect_language m = "english" ↔ french_count m < 2)
    ∧ (detect_language m = "french" ∨ detect_language m = "english") := by
  unfold detect_language
  by_cases h : 2 ≤ french_count m
  · simp [h]
  · simp [h]
    omega

/-- C3 counterexample: on a concrete request with a configured business,
`process_message` fails before intent classification — the error is the
`AttributeError` for the missing `Database.get_conversation`, control
never reaches `generate_response`, and the error is not the claimed
`AIResponse` subscript `TypeError`. -/
theorem process_message_counterexample :
    process_message sample_env sample_msg =
      ([], .error "\x27Database\x27 object has no attribute \x27get_conversation\x27")
    ∧ Ev.generate ∉ (process_message sample_env sample_msg).1
    ∧ Ev.classify ∉ (process_message sample_env sample_msg).1
    ∧ (process_message sample_env sample_msg).2 ≠
        .error "\x27AIResponse\x27 object is not subscriptable" := by
  refine ⟨by decide, by decide, by decide, by decide⟩

/-- C3 (amended): for every inbound message whose business lookup
succeeds, `process_message` returns an error dictionary rather than a
successful response, but the failure occurs before intent classification:
the attribute lookup `self.db.get_conversation` raises `AttributeError`
(`Database` defines no such method), the blanket handler converts it into
the error dictionary, and neither `classify_intent` nor
`generate_response` is ever reached. -/
theorem process_message_always_error (env : Env) (msg : SmsMessage)
    (b : Business) (hb : env.business = some b) :
    (process_message env msg).2 =
      .error "\x27Database\x27 object has no attribute \x27get_conversation\x27"
    ∧ Ev.classify ∉ (process_message env msg).1
    ∧ Ev.generate ∉ (process_message env msg).1 := by
  unfold process_message
  rw [hb]
  exact ⟨rfl, by simp [db_get_conversation], by simp [db_get_conversation]⟩

/-- C3 witness: the amended statement applied to the sample environment. -/
theorem process_message_always_error_witness :
    sample_env.business = some sample_business ∧
    ((process_message sample_env sample_msg).2 =
        .error "\x27Database\x27 object has no attribute \x27get_conversation\x27"
      ∧ Ev.classify ∉ (process_message sample_env sample_msg).1
      ∧ Ev.generate ∉ (process_message sample_env sample_msg).1) :=
  ⟨rfl, process_message_always_error sample_env sample_msg sample_business rfl⟩

/-- C4: if the Gemini generation call raises, `_safe_generate_content`
returns `None` instead of propagating, and the response generators then
return the fixed fallback replies: `Thanks for reaching out! How can I
help you today?` on the English path and `Merci de nous contacter!
Comment puis-je vous aider aujourd\x27hui?` on the French path. -/
theorem sdk_failure_returns_fallback (e m : String) (b : Business)
    (intent : MessageIntent) (llm : String → Except String String)
    (hllm : ∀ p, llm p = .error e) :
    safe_generate_content (.error e) = none
    ∧ (generate_english_response m b intent llm).text =
        "Thanks for reaching out! How can I help you today?"
    ∧ (generate_french_response m b intent llm).text =
        "Merci de nous contacter! Comment puis-je vous aider aujourd\x27hui?" := by
  refine ⟨rfl, ?_, ?_⟩ <;>
    simp [generate_english_response, generate_french_response, hllm,
      safe_generate_content, text_or_fallback, english_fallback_text,
      french_fallback_text]

/-- C4 witness: a concrete always-raising SDK oracle. -/
theorem sdk_failure_returns_fallback_witness :
    (∀ p, failing_llm p = .error "boom")
    ∧ (safe_generate_content (.error "boom") = none
      ∧ (generate_english_response "hello" sample_business sample_ai failing_llm).text =
          "Thanks for reaching out! How can I help you today?"
      ∧ (generate_french_response "hello" sample_business sample_ai failing_llm).text =
          "Merci de nous contacter! Comment puis-je vous aider aujourd\x27hui?") :=
  ⟨fun _ => rfl,
   sdk_failure_returns_fallback "boom" "hello" sample_business sample_ai
     failing_llm (fun _ => rfl)⟩

/-- C5: for every message `m` and business `b`, `generate_response`
produces its reply through the French prompt path exactly when
`detect_language m = "french"` and through the English prompt path
otherwise: the whole response equals the output of the corresponding generator,
and the reply text is obtained from the LLM applied to the corresponding
prompt of that language (with the fallback of that language). -/
theorem generate_response_language_dispatch (m : String) (b : Business)
    (ai : MessageIntent) (llm : String → Except String String) :
    (detect_language m = "french" →
      generate_response m b ai llm =
        generate_french_response m b (classify_intent m b ai) llm
      ∧ (generate_response m b ai llm).text =
          text_or_fallback
            (safe_generate_content (llm (french_prompt m b (classify_intent m b ai))))
            french_fallback_text)
    ∧ (detect_language m ≠ "french" →
      generate_response m b ai llm =
        generate_english_response m b (classify_intent m b ai) llm
      ∧ (generate_response m b ai llm).text =
          text_or_fallback
            (safe_generate_content (llm (english_prompt m b (classify_intent m b ai))))
            english_fallback_text) := by
  constructor
  · intro h
    constructor
    · simp [generate_response, h]
    · simp [generate_response, h, generate_french_response]
  · intro h
    constructor
    · simp [generate_response, h]
    · simp [generate_response, h, generate_english_response]

/-- C5 witness: a French-detected and an English-detected message. -/
theorem generate_response_language_dispatch_witness :
    (detect_language "bonjour merci" = "french"
      ∧ generate_response "bonjour merci" sample_business sample_ai ok_llm =
          generate_french_response "bonjour merci" sample_business
            (classify_intent "bonjour merci" sample_business sample_ai) ok_llm
      ∧ (generate_response "bonjour merci" sample_business sample_ai ok_llm).text =
          text_or_fallback
            (safe_generate_content (ok_llm (french_prompt "bonjour merci"
              sample_business
              (classify_intent "bonjour merci" sample_business sample_ai))))
            french_fallback_text)
    ∧ (detect_language "hello there" ≠ "french"
      ∧ generate_response "hello there" sample_business sample_ai ok_llm =
          generate_english_response "hello there" sample_business
            (classify_intent "hello there" sample_business sample_ai) ok_llm
      ∧ (generate_response "hello there" sample_business sample_ai ok_llm).text =
          text_or_fallback
            (safe_generate_content (ok_llm (english_prompt "hello there"
              sample_business
              (classify_intent "hello there" sample_business sample_ai))))
            english_fallback_text) := by
  have hfr : detect_language "bonjour merci" = "french" := by decide
  have hen : detect_language "hello there" ≠ "french" := by decide
  have h1 := (generate_response_language_dispatch "bonjour merci" sample_business
    sample_ai ok_llm).1 hfr
  have h2 := (generate_response_language_dispatch "hello there" sample_business
    sample_ai ok_llm).2 hen
  exact ⟨⟨hfr, h1.1, h1.2⟩, ⟨hen, h2.1, h2.2⟩⟩

/-- C6 counterexample: on `"zzz"` with an LLM classification that sets the
escalate flag, the response escalates although no escalation trigger is a
substring of the lowercased message and the classified intent is
`"general"`, not `"complaint"` — refuting the claimed equivalence for
arbitrary messages. -/
theorem escalation_iff_counterexample :
    (generate_response "zzz" sample_business escalating_ai ok_llm).escalate = true
    ∧ (∀ t ∈ escalation_triggers, inStr t (pyLower "zzz") = false)
    ∧ (classify_intent "zzz" sample_business escalating_ai).intent = "general" := by
  refine ⟨by decide, by decide, by decide⟩

/-- C6 (amended): the claimed equivalence holds for every message that the
keyword phase classifies (some category normalized score exceeds the
threshold): then the `escalate` field of the response is `True` iff some escalation
trigger is a substring of the lowercased message or the classified intent
is `"complaint"`.  (When classification falls back to the LLM,
`escalate` instead follows the LLM flag or-ed with the complaint
check, as the counterexample shows.) -/
theorem escalation_iff_keyword_phase (m : String) (b : Business)
    (ai : MessageIntent) (llm : String → Except String String)
    (h : ∃ q ∈ intent_keywords, q.2.length < 5 * keyword_score (pyLower m) q.2) :
    (generate_response m b ai llm).escalate = true ↔
      (∃ t ∈ escalation_triggers, t.data <:+: pyLower m) ∨
      (classify_intent m b ai).intent = "complaint" := by
  obtain ⟨top, _, _, _, heq⟩ := classify_keyword_hit m b h
  rw [generate_response_escalate_eq, heq ai]
  rw [← check_escalation_needed_iff]
  simp [Bool.or_eq_true]

/-- C6 witness: `"cancel reschedule change"` is keyword-classified as
cancellation; no trigger occurs and the intent is not `"complaint"`. -/
theorem escalation_iff_keyword_phase_witness :
    (∃ q ∈ intent_keywords,
      q.2.length < 5 * keyword_score (pyLower "cancel reschedule change") q.2)
    ∧ ((generate_response "cancel reschedule change" sample_business sample_ai
          ok_llm).escalate = true ↔
        (∃ t ∈ escalation_triggers,
          t.data <:+: pyLower "cancel reschedule change") ∨
        (classify_intent "cancel reschedule change" sample_business
          sample_ai).intent = "complaint") :=
  ⟨by decide,
   escalation_iff_keyword_phase "cancel reschedule change" sample_business
     sample_ai ok_llm (by decide)⟩

/-- C7 counterexample: on a concrete inbound SMS with a configured
business, the full trace is just the webhook receipt — the SDK send and
the interaction-log row never occur, so the claimed processing order
`webhook → classify → generate → send → log` does not hold. -/
theorem pipeline_order_counterexample :
    (handle_sms_webhook sample_env sample_msg).2 = [Ev.webhook]
    ∧ (handle_sms_webhook sample_env sample_msg).2 ≠
        [Ev.webhook, Ev.classify, Ev.generate, Ev.send, Ev.logRow]
    ∧ Ev.send ∉ (handle_sms_webhook sample_env sample_msg).2
    ∧ Ev.logRow ∉ (handle_sms_webhook sample_env sample_msg).2 := by
  refine ⟨by decide, by decide, by decide, by decide⟩

/-- C7 (amended): each inbound SMS produces only the webhook-receipt step.
The background pipeline fails at the missing `Database.get_conversation`
attribute (or earlier, at the business lookup) before classification, so
no classify, generate, SDK-send or log-row step ever occurs — in
particular the send never precedes a log row, and in the source the
`log_interaction` call site in fact precedes the `send_sms` call site. -/
theorem pipeline_trace_webhook_only (env : Env) (msg : SmsMessage) :
    (handle_sms_webhook env msg).2 = [Ev.webhook]
    ∧ Ev.send ∉ (handle_sms_webhook env msg).2
    ∧ Ev.logRow ∉ (handle_sms_webhook env msg).2 := by
  have htr : (handle_sms_webhook env msg).2 = [Ev.webhook] := by
    unfold handle_sms_webhook process_and_respond_sms process_message
    cases env.business <;> simp [db_get_conversation]
  refine ⟨htr, ?_, ?_⟩ <;> rw [htr] <;> simp

/-- C8: for every well-formed Twilio POST, the SMS webhook handler
schedules the processing as a background task and immediately returns an
empty-body HTTP 200 response; the response does not depend on the
processing environment (LLM oracles, database contents), so a failure in
the background processing cannot change it. -/
theorem webhook_reply_empty_200 (env envAlt : Env) (msg : SmsMessage) :
    (handle_sms_webhook env msg).1 = { body := "", status := 200 }
    ∧ (handle_sms_webhook env msg).1 = (handle_sms_webhook envAlt msg).1 :=
  ⟨rfl, rfl⟩

/-- C9 counterexample: a stored `services` blob `"5"` is valid JSON but
not an array; `get_business_by_phone` returns it as the JSON number 5, so
the claimed "services is a list" fails. -/
theorem get_business_by_phone_counterexample :
    get_business_by_phone [numeric_services_row] false "+15551234567" =
      some { id := "b1", name := "B", phone := "+15551234567", btype := "salon",
             hours := "9-5", address := "1 Main St",
             services := Json.num 5, faq_data := Json.obj [],
             pricing_data := Json.obj [] }
    ∧ (Json.num 5).isArr = false := ⟨rfl, rfl⟩

/-- C9 (amended): for every phone number, `get_business_by_phone` either
returns `None` (no matching row, or a database error — it never raises) or
returns the first matching row with each JSON-blob field replaced by its
parsed JSON value, where a missing or empty blob falls back to parsing the
literal `[]` / object-brace default and an unparsable blob is replaced by
the empty array / object; a blob that parses to a JSON value of another
type is kept as-is, so `services` need not be a list. -/
theorem get_business_by_phone_parsed (rows : List BusinessRow)
    (dbError : Bool) (phone : String) :
    (get_business_by_phone rows dbError phone = none ∨
      ∃ row, rows.find? (fun r => r.phone == phone) = some row ∧
        get_business_by_phone rows dbError phone = some
          { id := row.id, name := row.name, phone := row.phone,
            btype := row.btype, hours := row.hours, address := row.address,
            services := load_json_field row.services "[]" (Json.arr []),
            faq_data := load_json_field row.faq_data "\x7b\x7d" (Json.obj []),
            pricing_data :=
              load_json_field row.pricing_data "\x7b\x7d" (Json.obj []) })
    ∧ (∀ (s lit : String) (d : Json), s ≠ "" →
        json_loads s = none → load_json_field (some s) lit d = d)
    ∧ (∀ (lit : String) (d : Json),
        load_json_field none lit d = (json_loads lit).getD d
        ∧ load_json_field (some "") lit d = (json_loads lit).getD d)
    ∧ load_json_field none "[]" (Json.arr []) = Json.arr []
    ∧ load_json_field none "\x7b\x7d" (Json.obj []) = Json.obj [] := by
  refine ⟨?_, ?_, ?_, rfl, rfl⟩
  · unfold get_business_by_phone
    by_cases hErr : dbError
    · simp [hErr]
    · simp only [hErr, if_false, ite_false]
      cases hfind : rows.find? (fun r => r.phone == phone) with
      | none => exact Or.inl rfl
      | some row => exact Or.inr ⟨row, rfl, rfl⟩
  · intro s lit d hne hs
    show (match json_loads (if s = "" then lit else s) with
      | some v => v
      | none => d) = d
    rw [if_neg hne, hs]
  · intro lit d
    constructor
    · show (match json_loads lit with
        | some v => v
        | none => d) = (json_loads lit).getD d
      cases json_loads lit <;> rfl
    · show (match json_loads lit with
        | some v => v
        | none => d) = (json_loads lit).getD d
      cases json_loads lit <;> rfl

/-- C9 witness: an unparsable blob falls back to the empty array. -/
theorem get_business_by_phone_parsed_witness :
    json_loads "not json" = none
    ∧ load_json_field (some "not json") "[]" (Json.arr []) = Json.arr [] :=
  ⟨rfl, (get_business_by_phone_parsed [] false "x").2.1 "not json" "[]"
    (Json.arr []) (by decide) rfl⟩

/-- C10: escalation detection is monotone under message extension — if
`_check_escalation_needed` accepts `m`, it accepts `m ++ s` and `s ++ m`
for every string `s`, because it is a substring scan of fixed triggers
over the lowercased message. -/
theorem check_escalation_monotone (m s : String)
    (h : check_escalation_needed m = true) :
    check_escalation_needed (m ++ s) = true
    ∧ check_escalation_needed (s ++ m) = true := by
  simp only [check_escalation_needed, List.any_eq_true] at h ⊢
  obtain ⟨t, ht, hin⟩ := h
  constructor
  · exact ⟨t, ht, by rw [pyLower_append]; exact inStr_append_right _ _ _ hin⟩
  · exact ⟨t, ht, by rw [pyLower_append]; exact inStr_append_left _ _ _ hin⟩

/-- C10 witness: `"refund"` triggers escalation, and so do both
extensions. -/
theorem check_escalation_monotone_witness :
    check_escalation_needed "refund" = true
    ∧ (check_escalation_needed ("refund" ++ " please") = true
      ∧ check_escalation_needed (" please" ++ "refund") = true) :=
  ⟨by decide, check_escalation_monotone "refund" " please" (by decide)⟩
